import Mathlib

/-
Verification of the NorthernStarNotes host-page slice
(src/windows/NorthernStarNotes/MainPage.h).

The slice is a declaration-only C++ header: it declares
winrt::NorthernStarNotes::implementation::MainPage with a single
zero-argument constructor, and an empty factory struct
winrt::NorthernStarNotes::factory_implementation::MainPage.  The
constructor body (MainPage.cpp) and the generated base type MainPageT
are not part of the slice, so their behavior is modelled from the
specification; definitions taken from the spec rather than from source
text say so in their doc comments.
-/

namespace NorthernStarNotes

/-- Modelled from the spec: the configuration value accepted by the Runtime
Factory — entry bundle identifier (required), debug/developer-mode flag
(optional), and named feature toggles (optional). -/
structure RuntimeConfig where
  bundleName : String
  useDeveloperSupport : Bool
  featureFlags : List String
deriving Repr, DecidableEq

/-- Modelled from the spec: a Runtime Host, one running instance of the
embedded application runtime.  The hostId distinguishes independently created
instances; the configuration records how it was created. -/
structure RuntimeHost where
  hostId : Nat
  config : RuntimeConfig
deriving Repr, DecidableEq

/-- Modelled from the spec: a root view created from a Runtime Host and bound
to a named entry point; sourceHostId records which host produced the view. -/
structure RootView where
  viewId : Nat
  sourceHostId : Nat
  entryPoint : String
deriving Repr, DecidableEq

/-- Modelled from the spec: the Runtime Factory's state, a counter that gives
every newly produced Runtime Host a fresh identity.  The factory owns no
per-page state. -/
structure FactoryState where
  nextId : Nat
deriving Repr, DecidableEq

/-- Modelled from the spec: the Runtime Factory operation
createHost(config) -> RuntimeHost.  Produces a configured Runtime Host; it
does not fail synchronously, and its only effect is allocating a fresh host
identity. -/
def createHost (st : FactoryState) (config : RuntimeConfig) :
    RuntimeHost × FactoryState :=
  ({ hostId := st.nextId, config := config }, { nextId := st.nextId + 1 })

/-- Modelled from the spec: creating a root view from a Runtime Host, bound to
a specific entry-point name. -/
def RuntimeHost.createRootView (h : RuntimeHost) (entry : String) : RootView :=
  { viewId := h.hostId, sourceHostId := h.hostId, entryPoint := entry }

/-- Lifecycle states of a Host Page, following the spec's per-instance state
machine. -/
inductive PageLifecycle
  | uninitialized
  | bound
  | tornDown
deriving Repr, DecidableEq

/-- The spec's lifecycle transition relation for a Host Page: Uninitialized
moves to Bound when the constructor runs, and Bound moves to Torn Down when
the owning shell destroys the page.  No other transitions exist. -/
inductive LifeStep : PageLifecycle → PageLifecycle → Prop
  | construct : LifeStep PageLifecycle.uninitialized PageLifecycle.bound
  | teardown : LifeStep PageLifecycle.bound PageLifecycle.tornDown

/-- A member declaration of a C++ struct body, as far as this slice's header
needs to be described: constructors with their arity, data members, and
destructors. -/
inductive MemberDecl
  | ctorDecl (argCount : Nat)
  | dataMember (memberName : String)
  | dtorDecl
deriving Repr, DecidableEq

/-- The member declarations of
winrt::NorthernStarNotes::implementation::MainPage in MainPage.h lines 7-10:
a single zero-argument constructor and nothing else. -/
def implementationMainPageDecls : List MemberDecl :=
  [MemberDecl.ctorDecl 0]

/-- The member declarations of
winrt::NorthernStarNotes::factory_implementation::MainPage in MainPage.h
lines 13-18: the struct body is empty. -/
def factoryImplementationMainPageDecls : List MemberDecl :=
  []

/-- The state contributed by the generated base type MainPageT, which is
external to this slice: the page's visual content slot. -/
structure MainPageTState where
  content : Option RootView
deriving Repr, DecidableEq

/-- Modelled from the spec: the generated base type's default release of the
content slot, run by the shell's destruction sequence; the slice itself
declares no destructor, so this inherited behavior is all there is. -/
def MainPageTState.defaultRelease (_s : MainPageTState) : MainPageTState :=
  { content := none }

/-- The Host Page: the content slot inherited from the generated base type,
the implicit reference to the Runtime Host the page created (spec section 3),
and the lifecycle state. -/
structure MainPage where
  base : MainPageTState
  host : Option RuntimeHost
  lifecycle : PageLifecycle
deriving Repr, DecidableEq

/-- Observable events of a Host Page construction, used to count how many
times each step of the constructor runs. -/
inductive Event
  | hostCreated (hostId : Nat)
  | viewCreated (sourceHostId : Nat)
  | contentSet (sourceHostId : Nat)
  | becameBound
deriving Repr, DecidableEq

/-- Modelled from the spec: the fixed configuration of this page — entry
bundle name MainApp, debug flag false, no feature toggles. -/
def mainPageConfig : RuntimeConfig :=
  { bundleName := "MainApp", useDeveloperSupport := false, featureFlags := [] }

/-- Modelled from the spec: the body of the MainPage constructor, which is
declared at MainPage.h line 9 but whose definition (MainPage.cpp) is not part
of this slice.  Per the spec it unconditionally and synchronously obtains a
Runtime Host from the Runtime Factory, creates a root view bound to the
MainApp entry point, sets that view as the page's displayed content, and
becomes Bound.  Returns the page, the updated factory state, and the trace of
events in order. -/
def MainPage.constructTraced (st : FactoryState) :
    MainPage × FactoryState × List Event :=
  let hs := createHost st mainPageConfig
  let v := hs.1.createRootView ("MainApp")
  ({ base := { content := some v }, host := some hs.1,
     lifecycle := PageLifecycle.bound },
   hs.2,
   [Event.hostCreated hs.1.hostId, Event.viewCreated v.sourceHostId,
    Event.contentSet v.sourceHostId, Event.becameBound])

/-- The zero-argument MainPage constructor of MainPage.h line 9, with the
event trace dropped. -/
def MainPage.construct (st : FactoryState) : MainPage × FactoryState :=
  ((MainPage.constructTraced st).1, (MainPage.constructTraced st).2.1)

/-- Modelled from the spec: teardown (Bound to Torn Down), triggered by the
owning shell's destruction sequence; the page releases its reference to the
view through the generated base type's default release, and transitively its
reference to the Runtime Host. -/
def MainPage.teardown (p : MainPage) : MainPage :=
  { base := p.base.defaultRelease, host := none,
    lifecycle := PageLifecycle.tornDown }

/-- The content displayed through a page: whatever its content slot holds. -/
def MainPage.displayedContent (p : MainPage) : Option RootView :=
  p.base.content

/-- The identity of the Runtime Host currently owned by a page, if any. -/
def MainPage.ownedHostId (p : MainPage) : Option Nat :=
  p.host.map RuntimeHost.hostId

/-- The identity of the Runtime Host that produced the view in the page's
content slot, if any view is attached. -/
def MainPage.viewSourceHostId (p : MainPage) : Option Nat :=
  p.base.content.map RootView.sourceHostId

/-- Pages reachable through this slice's lifecycle operations: a page freshly
made by the constructor from some factory state, followed by any number of
teardowns. -/
inductive Reachable : MainPage → Prop
  | constructed (st : FactoryState) : Reachable (MainPage.construct st).1
  | torn (p : MainPage) : Reachable p → Reachable p.teardown

/-- States a page can be in at any moment after its teardown. -/
inductive PostTeardown (p : MainPage) : MainPage → Prop
  | here : PostTeardown p p.teardown
  | later (q : MainPage) : PostTeardown p q → PostTeardown p q.teardown

/-- A navigation frame that the windowing shell may or may not have provided
at construction time. -/
structure NavigationFrame where
  frameId : Nat
deriving Repr, DecidableEq

/-- The shell environment visible to a page under construction: possibly no
navigation frame exists yet. -/
structure ShellEnv where
  frame : Option NavigationFrame
deriving Repr, DecidableEq

/-- Modelled from the spec: the errors construction could conceivably raise;
the spec admits only a structural error from shell misuse, and treats it as a
build-time concern never raised at run time. -/
inductive ConstructError
  | structuralError
deriving Repr, DecidableEq

/-- Modelled from the spec: construction as invoked from a shell environment.
Attachment to a frame is deferred to the shell, so the environment does not
influence construction, and per the spec construction itself cannot
meaningfully fail. -/
def MainPage.constructInShell (_env : ShellEnv) (st : FactoryState) :
    Except ConstructError (MainPage × FactoryState) :=
  Except.ok (MainPage.construct st)

/-- Modelled from the spec: instance activation through the factory type of
MainPage.h lines 13-18.  The factory struct body is empty, so activation is
the inherited behavior of the generated factory base, which invokes the
implementation type's zero-argument constructor. -/
def factoryActivateInstance (st : FactoryState) : MainPage × FactoryState :=
  MainPage.construct st

/-- Recognizer for host-creation events. -/
def Event.isHostCreated : Event → Bool
  | Event.hostCreated _ => true
  | _ => false

/-- Recognizer for view-creation events. -/
def Event.isViewCreated : Event → Bool
  | Event.viewCreated _ => true
  | _ => false

/-- Recognizer for the transition-to-Bound event. -/
def Event.isBecameBound : Event → Bool
  | Event.becameBound => true
  | _ => false

/-- C1: for every construction of a Host Page, exactly one Runtime Host is
created for that page — the constructor's trace holds exactly one
host-creation event and the factory allocates exactly one fresh identity —
and view creation is attempted exactly once during that construction. -/
theorem c1_exactly_one_host_one_view (st : FactoryState) :
    ((MainPage.constructTraced st).2.2.countP Event.isHostCreated) = 1 ∧
    ((MainPage.constructTraced st).2.2.countP Event.isViewCreated) = 1 ∧
    (MainPage.construct st).2.nextId = st.nextId + 1 := by
  refine ⟨rfl, rfl, rfl⟩

/-- C2: immediately after construction, the page's content slot is non-empty
and holds the view produced from that page's own Runtime Host; moreover for
every page reachable through this slice's lifecycle, the host reference holds
at most one Runtime Host and any attached view corresponds to the currently
owned Runtime Host. -/
theorem c2_content_from_own_host :
    (∀ st : FactoryState,
      (MainPage.construct st).1.displayedContent.isSome = true ∧
      (MainPage.construct st).1.viewSourceHostId
        = (MainPage.construct st).1.ownedHostId) ∧
    (∀ p : MainPage, Reachable p →
      (∀ h1 h2 : RuntimeHost, p.host = some h1 → p.host = some h2 → h1 = h2) ∧
      (∀ v : RootView, p.displayedContent = some v →
        ∃ h : RuntimeHost, p.host = some h ∧ v.sourceHostId = h.hostId)) := by
  constructor
  · intro st
    exact ⟨rfl, rfl⟩
  · intro p hp
    induction hp with
    | constructed st =>
        constructor
        · intro h1 h2 e1 e2
          rw [e1, Option.some.injEq] at e2
          exact e2
        · intro v hv
          refine ⟨RuntimeHost.mk st.nextId mainPageConfig, rfl, ?_⟩
          have hv2 : some (RootView.mk st.nextId st.nextId ("MainApp")) = some v := hv
          rw [Option.some.injEq] at hv2
          rw [← hv2]
    | torn q hq ih =>
        constructor
        · intro h1 h2 e1 e2
          exact absurd e1 (by simp [MainPage.teardown])
        · intro v hv
          exact absurd hv (by simp [MainPage.teardown, MainPage.displayedContent,
            MainPageTState.defaultRelease])

/-- C2 witness: the two parts of the reachable-page invariant evaluated on a
concrete page built from factory state zero. -/
theorem c2_content_from_own_host_witness :
    ∃ h : RuntimeHost,
      (MainPage.construct ⟨0⟩).1.host = some h ∧
      (RootView.mk 0 0 ("MainApp")).sourceHostId = h.hostId :=
  (c2_content_from_own_host.2 (MainPage.construct ⟨0⟩).1
    (Reachable.constructed ⟨0⟩)).2 (RootView.mk 0 0 ("MainApp")) rfl

/-- C3: the transition from Uninitialized to Bound happens unconditionally,
exactly once, synchronously inside the constructor: the constructed page is
Bound, the constructor's trace carries exactly one became-Bound event, and in
the lifecycle relation Bound is reachable only from Uninitialized — no step
leads to Bound from Bound or from Torn Down. -/
theorem c3_bound_exactly_once :
    (∀ st : FactoryState,
      (MainPage.construct st).1.lifecycle = PageLifecycle.bound ∧
      ((MainPage.constructTraced st).2.2.countP Event.isBecameBound) = 1) ∧
    (∀ s : PageLifecycle, LifeStep s PageLifecycle.bound →
      s = PageLifecycle.uninitialized) ∧
    ¬ LifeStep PageLifecycle.bound PageLifecycle.bound ∧
    ¬ LifeStep PageLifecycle.tornDown PageLifecycle.bound := by
  refine ⟨fun st => ⟨rfl, rfl⟩, ?_, ?_, ?_⟩
  · intro s hs
    cases hs
    rfl
  · intro hs
    cases hs
  · intro hs
    cases hs

/-- C3 witness: the only lifecycle step into Bound, taken at its concrete
source state, indeed starts at Uninitialized. -/
theorem c3_bound_exactly_once_witness :
    PageLifecycle.uninitialized = PageLifecycle.uninitialized ∧
    (MainPage.construct ⟨0⟩).1.lifecycle = PageLifecycle.bound :=
  ⟨c3_bound_exactly_once.2.1 PageLifecycle.uninitialized LifeStep.construct,
   (c3_bound_exactly_once.1 ⟨0⟩).1⟩

/-- C4: the slice supplies both halves of the shell contract: the
implementation type declares a zero-argument constructor, and the factory
type exists and instantiates a page that ends construction Bound. -/
theorem c4_shell_contract :
    MemberDecl.ctorDecl 0 ∈ implementationMainPageDecls ∧
    (∀ st : FactoryState,
      (factoryActivateInstance st).1.lifecycle = PageLifecycle.bound) := by
  exact ⟨List.mem_singleton.mpr rfl, fun st => rfl⟩

/-- C5: under the fixed configuration (entry bundle MainApp, debug flag
false), two independently constructed pages each own a distinct Runtime Host,
each page's view references its own host and not the other page's host, and
no Runtime Host is shared. -/
theorem c5_no_host_sharing (st : FactoryState) :
    ((MainPage.construct st).1.host.map RuntimeHost.config
        = some mainPageConfig) ∧
    mainPageConfig.bundleName = "MainApp" ∧
    mainPageConfig.useDeveloperSupport = false ∧
    (MainPage.construct st).1.ownedHostId = some st.nextId ∧
    (MainPage.construct (MainPage.construct st).2).1.ownedHostId
        = some (st.nextId + 1) ∧
    (MainPage.construct st).1.viewSourceHostId
        = (MainPage.construct st).1.ownedHostId ∧
    (MainPage.construct (MainPage.construct st).2).1.viewSourceHostId
        = (MainPage.construct (MainPage.construct st).2).1.ownedHostId ∧
    (MainPage.construct st).1.ownedHostId
        ≠ (MainPage.construct (MainPage.construct st).2).1.ownedHostId ∧
    (MainPage.construct st).1.viewSourceHostId
        ≠ (MainPage.construct (MainPage.construct st).2).1.ownedHostId ∧
    (MainPage.construct (MainPage.construct st).2).1.viewSourceHostId
        ≠ (MainPage.construct st).1.ownedHostId := by
  refine ⟨rfl, rfl, rfl, rfl, rfl, rfl, rfl, ?_, ?_, ?_⟩
  · intro hc
    exact absurd (Option.some.inj
      (show some st.nextId = some (st.nextId + 1) from hc)) (by omega)
  · intro hc
    exact absurd (Option.some.inj
      (show some st.nextId = some (st.nextId + 1) from hc)) (by omega)
  · intro hc
    exact absurd (Option.some.inj
      (show some (st.nextId + 1) = some st.nextId from hc)) (by omega)

/-- C6: construction completes without raising an error for every shell
environment and factory state, including the environment in which no
shell-provided navigation frame exists. -/
theorem c6_construction_never_fails (env : ShellEnv) (st : FactoryState) :
    ∃ (p : MainPage) (st2 : FactoryState),
      MainPage.constructInShell env st = Except.ok (p, st2) ∧
      p.lifecycle = PageLifecycle.bound :=
  ⟨(MainPage.construct st).1, (MainPage.construct st).2, rfl, rfl⟩

/-- C7: teardown releases the page's reference to its view and to its Runtime
Host, and in every state after teardown no content is displayed through that
page. -/
theorem c7_teardown_releases_view (p q : MainPage) (h : PostTeardown p q) :
    q.displayedContent = none ∧ q.host = none := by
  induction h with
  | here => exact ⟨rfl, rfl⟩
  | later r _ _ => exact ⟨rfl, rfl⟩

/-- C7 witness: a concrete page, once torn down, displays no content and owns
no host. -/
theorem c7_teardown_releases_view_witness :
    (MainPage.construct ⟨0⟩).1.teardown.displayedContent = none ∧
    (MainPage.construct ⟨0⟩).1.teardown.host = none :=
  c7_teardown_releases_view (MainPage.construct ⟨0⟩).1
    (MainPage.construct ⟨0⟩).1.teardown PostTeardown.here

/-- C8: after a page is torn down, re-navigation through the factory produces
a fresh page whose fresh Runtime Host differs from the prior page's host, the
new view references only the new host, and the torn-down prior page retains
no view and no host. -/
theorem c8_renavigation_fresh (st : FactoryState) :
    (MainPage.construct st).1.ownedHostId = some st.nextId ∧
    (factoryActivateInstance (MainPage.construct st).2).1.ownedHostId
        = some (st.nextId + 1) ∧
    (factoryActivateInstance (MainPage.construct st).2).1.ownedHostId
        ≠ (MainPage.construct st).1.ownedHostId ∧
    (factoryActivateInstance (MainPage.construct st).2).1.viewSourceHostId
        = (factoryActivateInstance (MainPage.construct st).2).1.ownedHostId ∧
    (factoryActivateInstance (MainPage.construct st).2).1.viewSourceHostId
        ≠ some st.nextId ∧
    (MainPage.construct st).1.teardown.displayedContent = none ∧
    (MainPage.construct st).1.teardown.host = none := by
  refine ⟨rfl, rfl, ?_, rfl, ?_, rfl, rfl⟩
  · intro hc
    exact absurd (Option.some.inj
      (show some (st.nextId + 1) = some st.nextId from hc)) (by omega)
  · intro hc
    exact absurd (Option.some.inj
      (show some (st.nextId + 1) = some st.nextId from hc)) (by omega)

/-- C9: the MainPage implementation type declares no data members and no
destructor of its own, and the teardown release of the content slot is
exactly the generated base type's default release applied to the inherited
state. -/
theorem c9_no_own_state :
    (∀ m ∈ implementationMainPageDecls,
      (∀ s : String, m ≠ MemberDecl.dataMember s) ∧ m ≠ MemberDecl.dtorDecl) ∧
    (∀ p : MainPage, p.teardown.base = p.base.defaultRelease) := by
  constructor
  · intro m hm
    rw [implementationMainPageDecls, List.mem_singleton] at hm
    subst hm
    exact ⟨fun s => by simp, by simp⟩
  · intro p
    rfl

/-- C9 witness: the invariant applied to the one declaration the header
contains, the zero-argument constructor. -/
theorem c9_no_own_state_witness :
    (∀ s : String, MemberDecl.ctorDecl 0 ≠ MemberDecl.dataMember s) ∧
    MemberDecl.ctorDecl 0 ≠ MemberDecl.dtorDecl :=
  c9_no_own_state.1 (MemberDecl.ctorDecl 0) (List.mem_singleton.mpr rfl)

/-- C10: the factory type declares no members and no state of its own, and
instantiation through the factory equals direct default construction of the
implementation type at every factory state. -/
theorem c10_factory_equals_default_ctor :
    factoryImplementationMainPageDecls = [] ∧
    (∀ st : FactoryState, factoryActivateInstance st = MainPage.construct st) :=
  ⟨rfl, fun _ => rfl⟩

end NorthernStarNotes
